import Mathlib

/-!
Shallow embedding of the spreadsheet ingestion engine of the nakama_proj
repository: the `CriteriaSheetParser` and `AISheetParser` Excel parsers
(`backend/app/integrations/excel/criteria.py`, `.../ai_sheet.py`) and the
`NakamaSyncService` (`backend/app/integrations/nakama/sync.py`), as given in
`Docs/agents/AGENT_5_INTEGRATION.md`.

Modelling conventions:
* A spreadsheet cell is `Cell`: `empty` stands for a pandas NaN/None cell
  (`pd.isna` true), `num q` for an int/float cell, `str s` for a string cell.
* Python dicts are insertion-ordered association lists (`dictSet` updates in
  place, else appends), matching CPython dict semantics.
* Python `str.lower()` is `pyLower` (ASCII and the Russian alphabet, the only
  scripts these keyword tables use); `str.strip()` is `pyStrip`.
* Python `int(x)` on a float truncates toward zero: `pyInt`.
* Exceptions that the parsing code itself raises are `Except` errors.
-/

/-- A spreadsheet cell as seen through pandas: NaN/None, a numeric cell, or a
string cell. -/
inductive Cell where
  | empty : Cell
  | num : ℚ → Cell
  | str : String → Cell
deriving Repr, DecidableEq

/-- `pd.notna(value)`: false exactly on the NaN/None cell. -/
def notna : Cell → Bool
  | .empty => false
  | _ => true

/-- Python `str.lower()` for the alphabets these sheets use: ASCII `A`-`Z`
and Cyrillic `А`-`Я` / `Ё`. -/
def pyLowerChar (c : Char) : Char :=
  if 'A' ≤ c ∧ c ≤ 'Z' then Char.ofNat (c.toNat + 32)
  else if c.toNat ≥ 0x410 ∧ c.toNat ≤ 0x42F then Char.ofNat (c.toNat + 0x20)
  else if c.toNat = 0x401 then Char.ofNat 0x451
  else c

/-- Python `str.lower()`. -/
def pyLower (s : String) : String :=
  String.mk (s.toList.map pyLowerChar)

/-- Does `needle` start `hay`? -/
def listStartsWith [BEq α] : List α → List α → Bool
  | [], _ => true
  | _ :: _, [] => false
  | n :: ns, h :: hs => n == h && listStartsWith ns hs

/-- Is `needle` a contiguous sublist of `hay`? (Python's `needle in hay` on
strings, via their character lists.) -/
def listHasInfix [BEq α] (needle : List α) : List α → Bool
  | [] => needle.isEmpty
  | h :: hs => listStartsWith needle (h :: hs) || listHasInfix needle hs

/-- Python's substring test `needle in hay`. -/
def strContains (hay needle : String) : Bool :=
  listHasInfix needle.toList hay.toList

/-- The whitespace Python's `str.strip()` and `\s` recognise (its ASCII
part: space, tab, newline, carriage return, vertical tab, form feed). -/
def isPySpace (c : Char) : Bool :=
  c == ' ' || c == '\t' || c == '\n' || c == '\r' || c == '\x0b' || c == '\x0c'

/-- Python `str.strip()`: drop leading and trailing whitespace. -/
def pyStrip (s : String) : String :=
  String.mk (((s.toList.dropWhile isPySpace).reverse.dropWhile isPySpace).reverse)

/-- Python `str(cell)` for the cells this pipeline feeds it.  String cells are
returned as-is; every use in the source is guarded by `pd.notna`, so the
`empty` case (Python would print `"nan"`) is never exercised; for numeric
cells Python prints the float form, which no theorem below exercises. -/
def cellStr : Cell → String
  | .empty => "nan"
  | .num q => toString q
  | .str s => s

/-- Python `int(x)` on a number: truncation toward zero. -/
def pyInt (q : ℚ) : ℤ :=
  if 0 ≤ q then ⌊q⌋ else ⌈q⌉

/-- Python `int(cell)`: truncation for numeric cells, string-to-integer
parsing for string cells (`none` models the `ValueError` Python raises on a
NaN or an unparsable string). -/
def cellInt : Cell → Option ℤ
  | .empty => none
  | .num q => some (pyInt q)
  | .str s => (pyStrip s).toInt?

/-- Python `float(cell)` for the cells the formula columns carry.  All uses
are guarded by `pd.notna`; string parsing (`float("87.5")`) is not exercised
by any theorem below and is modelled coarsely as `0`. -/
def pyFloat : Cell → ℚ
  | .empty => 0
  | .num q => q
  | .str _ => 0

/-- `row.iloc[i]`.  An out-of-range access raises in pandas; the rows the
theorems below use are always wide enough, and the out-of-range case is
modelled as an empty cell. -/
def rowGet (row : List Cell) (i : ℕ) : Cell :=
  row.getD i Cell.empty

/-- CPython dict assignment `m[k] = v` on an insertion-ordered association
list: update in place when the key exists, else append. -/
def dictSet [BEq α] (m : List (α × β)) (k : α) (v : β) : List (α × β) :=
  if m.any (fun p => p.1 == k) then
    m.map (fun p => if p.1 == k then (k, v) else p)
  else m ++ [(k, v)]

/-! ## Criteria sheet parser (`backend/app/integrations/excel/criteria.py`) -/

/-- `CriteriaGroup(name=..., order=...)`. -/
structure CriteriaGroup where
  name : String
  order : ℕ
deriving Repr, DecidableEq

/-- `Criteria(group=..., number=..., name=..., prompt=..., in_final_score=...)`.
`group` is an `Option` because the parser's `current_group` starts as
`None` and is passed through unchanged. -/
structure Criteria where
  group : Option CriteriaGroup
  number : ℤ
  name : String
  prompt : Option String
  in_final_score : Bool
deriving Repr, DecidableEq

/-- `ParsedCriteria(groups=..., criteria=...)`. -/
structure ParsedCriteria where
  groups : List CriteriaGroup
  criteria : List Criteria
deriving Repr, DecidableEq

/-- The errors the ingestion code raises itself: the
`ValueError("Criteria sheet not found")` of `_find_criteria_sheet`, and the
`ValueError` of a failing `int(...)` on a criterion-number cell. -/
inductive IngestError where
  | sheetNotFound : IngestError
  | invalidInt : IngestError
deriving Repr, DecidableEq

namespace CriteriaSheetParser

/-- Is this row's column 0 a group cell?
(`pd.notna(row.iloc[0]) and str(row.iloc[0]).strip()`). -/
def isGroupRow (row : List Cell) : Bool :=
  notna (rowGet row 0) && (pyStrip (cellStr (rowGet row 0)) != "")

/-- One iteration step of `CriteriaSheetParser.parse`'s row loop, made a
structural recursion threading `current_group` and `len(groups)`. -/
def goRows (current : Option CriteriaGroup) (nGroups : ℕ) :
    List (List Cell) → Except IngestError (List CriteriaGroup × List Criteria)
  | [] => .ok ([], [])
  | row :: rest =>
    let isG := isGroupRow row
    let g : CriteriaGroup := { name := pyStrip (cellStr (rowGet row 0)), order := nGroups }
    let current' := if isG then some g else current
    let nGroups' := if isG then nGroups + 1 else nGroups
    let c1 := rowGet row 1
    let newCrits : Except IngestError (List Criteria) :=
      if notna c1 then
        match cellInt c1 with
        | some n =>
          .ok [{ group := current'
                 number := n
                 name := if notna (rowGet row 2) then pyStrip (cellStr (rowGet row 2)) else ""
                 prompt := if notna (rowGet row 3) then some (pyStrip (cellStr (rowGet row 3))) else none
                 in_final_score :=
                   if notna (rowGet row 4) then
                     pyStrip (pyLower (cellStr (rowGet row 4))) == "да"
                   else false }]
        | none => .error .invalidInt
      else .ok []
    match newCrits with
    | .error e => .error e
    | .ok cs =>
      match goRows current' nGroups' rest with
      | .error e => .error e
      | .ok (gs, crits) => .ok ((if isG then [g] else []) ++ gs, cs ++ crits)

/-- The row loop of `CriteriaSheetParser.parse`, started with
`current_group = None` and empty accumulators, over the data rows (the rows
after the header row that `pd.read_excel` consumes). -/
def parseRows (rows : List (List Cell)) : Except IngestError ParsedCriteria :=
  (goRows none 0 rows).map (fun p => { groups := p.1, criteria := p.2 })

/-- `CriteriaSheetParser._find_criteria_sheet`: the first sheet whose
lowered name contains `"criteria"`, else the fatal
`ValueError("Criteria sheet not found")`. -/
def findCriteriaSheet (names : List String) : Except IngestError String :=
  match names.find? (fun n => strContains (pyLower n) "criteria") with
  | some n => .ok n
  | none => .error .sheetNotFound

/-- `CriteriaSheetParser.parse`: locate the criteria sheet, then run the row
loop over its rows after the header row. -/
def parse (workbook : List (String × List (List Cell))) :
    Except IngestError ParsedCriteria :=
  match findCriteriaSheet (workbook.map Prod.fst) with
  | .error e => .error e
  | .ok name =>
    parseRows (((((workbook.find? (fun p => p.1 == name)).map Prod.snd).getD [])).drop 1)

end CriteriaSheetParser

/-! ## AI sheet parser (`backend/app/integrations/excel/ai_sheet.py`) -/

/-- One per-criterion score as built by `_parse_call_row`:
`CallScore(criteria_number=..., score=..., reason=..., quote=...)`. -/
structure CallScore where
  criteria_number : ℤ
  score : Option String
  reason : Option String
  quote : Option String
deriving Repr, DecidableEq

/-- `ParsedCall(metadata=..., scores=..., final_percent=...)`. -/
structure ParsedCall where
  metadata : List (String × Cell)
  scores : List CallScore
  final_percent : Option ℚ
deriving Repr, DecidableEq

/-- The `(score_col, reason_col, quote_col)` triple stored per criterion
number in `ColumnMapping.criteria_columns`. -/
structure ColumnTriple where
  score_col : Option ℕ
  reason_col : Option ℕ
  quote_col : Option ℕ
deriving Repr, DecidableEq

/-- `ColumnMapping`: three insertion-ordered dicts, as in the source's
`meta_columns` / `criteria_columns` / `formula_columns`. -/
structure ColumnMapping where
  meta_columns : List (ℕ × String) := []
  criteria_columns : List (ℤ × ColumnTriple) := []
  formula_columns : List (ℕ × String) := []
deriving Repr, DecidableEq

namespace ColumnMapping

/-- Update (or create) the `ColumnTriple` of `num` with `f`.  The
`add_*_column` methods of `ColumnMapping` are not shown in the source;
they are modelled as plain dict-slot assignment on `criteria_columns`
(create the entry on first sight, set the one slot). -/
def updTriple (m : ColumnMapping) (num : ℤ) (f : ColumnTriple → ColumnTriple) :
    ColumnMapping :=
  let old := ((m.criteria_columns.find? (fun p => p.1 == num)).map Prod.snd).getD
    { score_col := none, reason_col := none, quote_col := none }
  { m with criteria_columns := dictSet m.criteria_columns num (f old) }

/-- `mapping.add_score_column(num, col)`. -/
def addScoreColumn (m : ColumnMapping) (num : ℤ) (col : ℕ) : ColumnMapping :=
  m.updTriple num (fun t => { t with score_col := some col })

/-- `mapping.add_reason_column(num, col)`. -/
def addReasonColumn (m : ColumnMapping) (num : ℤ) (col : ℕ) : ColumnMapping :=
  m.updTriple num (fun t => { t with reason_col := some col })

/-- `mapping.add_quote_column(num, col)`. -/
def addQuoteColumn (m : ColumnMapping) (num : ℤ) (col : ℕ) : ColumnMapping :=
  m.updTriple num (fun t => { t with quote_col := some col })

end ColumnMapping

namespace AISheetParser

/-- The static `meta_keywords` table of `_build_column_mapping`, in source
order. -/
def metaKeywords : List (String × String) :=
  [("дата звонка", "call_date"),
   ("call_date", "call_date"),
   ("менеджер", "manager_name"),
   ("фио менеджера", "manager_name"),
   ("длительность", "duration"),
   ("id звонка", "call_id"),
   ("неделя", "call_week"),
   ("week", "call_week")]

/-- The digits of a decimal numeral, as a natural number. -/
def digitsToNat (ds : List Char) : ℕ :=
  ds.foldl (fun a c => a * 10 + (c.toNat - 48)) 0

/-- `re.match(r'^(\d+)\s+', s)`: at least one leading digit followed by at
least one whitespace character; returns `int(match.group(1))`. -/
def leadingNumber (s : String) : Option ℤ :=
  let cs := s.toList
  let ds := cs.takeWhile Char.isDigit
  if ds.isEmpty then none
  else
    match cs.dropWhile Char.isDigit with
    | c :: _ => if isPySpace c then some (digitsToNat ds : ℤ) else none
    | [] => none

/-- The body of `_build_column_mapping`'s per-column loop for one header
cell.  Note the three checks run in sequence on the same header — a
successful metadata match does not skip the criterion/formula checks — and
the taxonomy passed to `_build_column_mapping` is never consulted. -/
def classifyHeader (m : ColumnMapping) (col : ℕ) (cell : Cell) : ColumnMapping :=
  match cell with
  | .str s =>
    if s == "" then m
    else
      let hl := pyStrip (pyLower s)
      let m1 :=
        match metaKeywords.find? (fun kv => strContains hl kv.1) with
        | some kv => { m with meta_columns := dictSet m.meta_columns col kv.2 }
        | none => m
      let m2 :=
        match leadingNumber (pyStrip s) with
        | some num =>
          if strContains hl "reason" then m1.addReasonColumn num col
          else if strContains hl "quote" then m1.addQuoteColumn num col
          else m1.addScoreColumn num col
        | none => m1
      if strContains hl "final" || strContains hl "average" then
        { m2 with formula_columns := dictSet m2.formula_columns col s }
      else m2
  | _ => m

/-- `AISheetParser._build_column_mapping(headers, criteria)`.  The `criteria`
parameter mirrors the source signature; the source body never reads it. -/
def buildColumnMapping (headers : List Cell) (criteria : List Criteria) :
    ColumnMapping :=
  let _ := criteria
  (headers.enum.foldl (fun m p => classifyHeader m p.1 p.2) {})

/-- `AISheetParser._parse_score(value)`. -/
def parseScore : Cell → Option String
  | .empty => none
  | .num q => some (toString (pyInt q))
  | .str s => some (pyStrip s)

/-- `str(row.iloc[c]).strip() if c and pd.notna(row.iloc[c]) else None`:
the reason/quote extraction, including the Python truthiness of the column
index (column 0 counts as absent). -/
def optText (row : List Cell) : Option ℕ → Option String
  | some c =>
    if c == 0 then none
    else if notna (rowGet row c) then some (pyStrip (cellStr (rowGet row c)))
    else none
  | none => none

/-- `AISheetParser._parse_call_row(row, mapping, criteria)`.  The source
returns a `ParsedCall` unconditionally (its `Optional` return type
notwithstanding), so the model is total.  `score_col` goes through Python
truthiness too: a score column at index 0 is treated as missing. -/
def parseCallRow (row : List Cell) (mapping : ColumnMapping)
    (criteria : List Criteria) : ParsedCall :=
  let _ := criteria
  let meta := mapping.meta_columns.foldl
    (fun acc p => if notna (rowGet row p.1) then dictSet acc p.2 (rowGet row p.1) else acc) []
  let scores := mapping.criteria_columns.map (fun p =>
    { criteria_number := p.1
      score :=
        match p.2.score_col with
        | some c => if c == 0 then none else parseScore (rowGet row c)
        | none => none
      reason := optText row p.2.reason_col
      quote := optText row p.2.quote_col })
  let final_percent := mapping.formula_columns.foldl
    (fun acc p =>
      if strContains (pyLower p.2) "final" then
        if notna (rowGet row p.1) then some (pyFloat (rowGet row p.1)) else acc
      else acc) none
  { metadata := meta, scores := scores, final_percent := final_percent }

/-- `AISheetParser.parse`: headers are the sheet's row 2, data rows start at
row 3; every row yields a call (`if call:` is always true on a `ParsedCall`
object). -/
def parse (rows : List (List Cell)) (criteria : List Criteria) :
    List ParsedCall :=
  let headers := rows.getD 2 []
  let mapping := buildColumnMapping headers criteria
  (rows.drop 3).map (fun row => parseCallRow row mapping criteria)

end AISheetParser

/-! ## Sync service (`backend/app/integrations/nakama/sync.py`) -/

namespace Sync

/-- One element of the `insights` list `get_insights` returns for an item
set: the fields `_sync_call` reads, with the source's `.get(..., "")`
defaults already applied and `str(insight.get("score", ""))` already a
string. -/
structure Insight where
  criterion_name : String
  score : String
  reasons : String
  quotes : String
deriving Repr, DecidableEq

/-- The CRM fields `_sync_call` reads.  `file_duration` is modelled after
the source's `int(crm_data.get("file_duration", 0))` coercion. -/
structure CrmData where
  call_date : Option String
  week_of_the_call : Option String
  file_duration : ℤ
  manager_name : Option String
  otvetstvennyy : Option String
deriving Repr, DecidableEq

/-- One item set returned by `get_item_sets`, bundled with the insights and
CRM data the client would fetch for it (the network client is an external
collaborator; its responses are data here). -/
structure ItemSet where
  id : ℤ
  status_within_project : String
  insights : List Insight
  crm : CrmData
deriving Repr, DecidableEq

/-- A `CallScore` database row as added by `_sync_call`. -/
structure CallScoreRow where
  criteria_id : ℤ
  score : String
  reason : String
  quote : String
deriving Repr, DecidableEq

/-- A `Call` database row as created by `_sync_call`, with its score rows.
`call_date` models `_parse_date` (not shown in the source) as the raw
optional string; `manager` models `_get_or_create_manager` (not shown) by
recording the chosen manager name. -/
structure Call where
  project_id : ℤ
  external_id : String
  call_date : Option String
  call_week : Option String
  duration_seconds : ℤ
  manager : Option String
  scores : List CallScoreRow
deriving Repr, DecidableEq

/-- One entry of `SyncResult.errors`. -/
structure SyncError where
  item_set_id : ℤ
  error : String
deriving Repr, DecidableEq

/-- `SyncResult(synced=..., errors=...)`. -/
structure SyncResult where
  synced : ℕ
  errors : List SyncError
deriving Repr, DecidableEq

end Sync

namespace NakamaSyncService

open Sync

/-- Does the database hold a call with this project id and external id?
(the `select(Call).where(...)` existence check of `_sync_call`). -/
def hasCall (db : List Call) (pid : ℤ) (ext : String) : Bool :=
  db.any (fun c => c.project_id == pid && c.external_id == ext)

/-- `_find_criteria(local_project_id, name)` is not shown in the source;
modelled as a lookup of the project's criteria rows `(id, name)` by name. -/
def findCriteria (criteriaDb : List (ℤ × String)) (name : String) : Option ℤ :=
  (criteriaDb.find? (fun p => p.2 == name)).map Prod.fst

/-- `NakamaSyncService._sync_call`: skip when a call with the same
`(project_id, external_id)` exists — the content is not compared — else
insert the call with one score row per insight whose criterion name is
found. -/
def syncCall (criteriaDb : List (ℤ × String)) (pid : ℤ) (db : List Call)
    (item : ItemSet) : List Call :=
  if hasCall db pid (toString item.id) then db
  else
    db ++ [{ project_id := pid
             external_id := toString item.id
             call_date := item.crm.call_date
             call_week := item.crm.week_of_the_call
             duration_seconds := item.crm.file_duration
             manager := item.crm.manager_name.orElse (fun _ => item.crm.otvetstvennyy)
             scores := item.insights.filterMap (fun ins =>
               (findCriteria criteriaDb ins.criterion_name).map (fun cid =>
                 { criteria_id := cid
                   score := ins.score
                   reason := ins.reasons
                   quote := ins.quotes }))}]

/-- The item-set loop of `sync_project`: non-`"processed"` item sets are
skipped; each processed one goes through `_sync_call` and increments
`synced` — whether `_sync_call` inserted or skipped.  The `try/except` arm
models no failures (the client responses are given as data), so `errors`
stays empty. -/
def syncLoop (criteriaDb : List (ℤ × String)) (pid : ℤ) :
    List Call → ℕ → List ItemSet → ℕ × List Call
  | db, n, [] => (n, db)
  | db, n, item :: rest =>
    if item.status_within_project != "processed" then
      syncLoop criteriaDb pid db n rest
    else
      syncLoop criteriaDb pid (syncCall criteriaDb pid db item) (n + 1) rest

/-- `NakamaSyncService.sync_project`, over the item sets the client
returned: runs the loop and packages `SyncResult(synced, errors)` together
with the database state. -/
def syncProject (criteriaDb : List (ℤ × String)) (pid : ℤ) (db : List Call)
    (items : List ItemSet) : SyncResult × List Call :=
  ({ synced := (syncLoop criteriaDb pid db 0 items).1, errors := [] },
   (syncLoop criteriaDb pid db 0 items).2)

end NakamaSyncService

/-! ## Helper lemmas -/

/-- A left fold that overwrites its accumulator whenever `P` and `Q` hold
computes the last entry of the list satisfying both, i.e. the first entry of
the reversed list. -/
theorem foldl_overwrite_eq_find_reverse (P Q : α → Bool) (f : α → β) :
    ∀ (l : List α) (acc : Option β),
      l.foldl (fun a x => if P x then (if Q x then some (f x) else a) else a) acc
        = match l.reverse.find? (fun x => P x && Q x) with
          | some x => some (f x)
          | none => acc := by
  intro l
  induction l with
  | nil => intro acc; rfl
  | cons x t ih =>
    intro acc
    simp only [List.foldl_cons, List.reverse_cons]
    rw [ih, List.find?_append]
    rcases ht : t.reverse.find? (fun x => P x && Q x) with _ | y
    · simp only [Option.none_orElse]
      rcases hP : P x with _ | _ <;> rcases hQ : Q x with _ | _ <;>
        simp [List.find?, hP, hQ]
    · simp

namespace CriteriaSheetParser

/-- Every row whose number cell is non-empty contributes exactly one
criterion to the row loop's output — numbers seen before included. -/
theorem goRows_criteria_length :
    ∀ (rows : List (List Cell)) (current : Option CriteriaGroup) (nGroups : ℕ)
      (gs : List CriteriaGroup) (cs : List Criteria),
      goRows current nGroups rows = .ok (gs, cs) →
      cs.length = (rows.filter (fun row => notna (rowGet row 1))).length := by
  intro rows
  induction rows with
  | nil =>
    intro current nGroups gs cs h
    simp only [goRows, Except.ok.injEq, Prod.mk.injEq] at h
    simp [← h.2]
  | cons row rest ih =>
    intro current nGroups gs cs h
    simp only [goRows] at h
    rcases hn : notna (rowGet row 1) with _ | _
    · simp only [hn, Bool.false_eq_true, if_false] at h
      rcases hrec : goRows (if isGroupRow row then some _ else current)
          (if isGroupRow row then nGroups + 1 else nGroups) rest with e | ⟨gs', cs'⟩ <;>
        rw [hrec] at h
      · exact absurd h (by simp)
      · simp only [Except.ok.injEq, Prod.mk.injEq] at h
        rw [← h.2]
        simp only [List.filter_cons, hn, Bool.false_eq_true, if_false, List.nil_append]
        exact ih _ _ _ _ hrec
    · simp only [hn, if_true] at h
      rcases hi : cellInt (rowGet row 1) with _ | n <;> rw [hi] at h
      · exact absurd h (by simp)
      · rcases hrec : goRows (if isGroupRow row then some _ else current)
            (if isGroupRow row then nGroups + 1 else nGroups) rest with e | ⟨gs', cs'⟩ <;>
          rw [hrec] at h
        · exact absurd h (by simp)
        · simp only [Except.ok.injEq, Prod.mk.injEq] at h
          rw [← h.2]
          simp only [List.filter_cons, hn, if_true, List.length_cons,
            List.singleton_append]
          exact congrArg Nat.succ (ih _ _ _ _ hrec)

/-- When no row of the input is a group row, the row loop creates no group
and every emitted criterion keeps the incoming `current_group`. -/
theorem goRows_no_group :
    ∀ (rows : List (List Cell)) (current : Option CriteriaGroup) (nGroups : ℕ)
      (gs : List CriteriaGroup) (cs : List Criteria),
      (∀ row ∈ rows, isGroupRow row = false) →
      goRows current nGroups rows = .ok (gs, cs) →
      gs = [] ∧ ∀ c ∈ cs, c.group = current := by
  intro rows
  induction rows with
  | nil =>
    intro current nGroups gs cs _ h
    simp only [goRows, Except.ok.injEq, Prod.mk.injEq] at h
    refine ⟨h.1.symm, ?_⟩
    rw [← h.2]; simp
  | cons row rest ih =>
    intro current nGroups gs cs hng h
    have hg : isGroupRow row = false := hng row (by simp)
    simp only [goRows, hg, Bool.false_eq_true, if_false] at h
    rcases hn : notna (rowGet row 1) with _ | _
    · simp only [hn, Bool.false_eq_true, if_false] at h
      rcases hrec : goRows current nGroups rest with e | ⟨gs', cs'⟩ <;> rw [hrec] at h
      · exact absurd h (by simp)
      · simp only [Except.ok.injEq, Prod.mk.injEq, List.nil_append] at h
        obtain ⟨hgs, hcs⟩ := h
        have := ih current nGroups gs' cs' (fun r hr => hng r (by simp [hr])) hrec
        exact ⟨hgs ▸ this.1, hcs ▸ (by simpa using this.2)⟩
    · simp only [hn, if_true] at h
      rcases hi : cellInt (rowGet row 1) with _ | n <;> rw [hi] at h
      · exact absurd h (by simp)
      · rcases hrec : goRows current nGroups rest with e | ⟨gs', cs'⟩ <;> rw [hrec] at h
        · exact absurd h (by simp)
        · simp only [Except.ok.injEq, Prod.mk.injEq, List.nil_append,
            List.singleton_append] at h
          obtain ⟨hgs, hcs⟩ := h
          have := ih current nGroups gs' cs' (fun r hr => hng r (by simp [hr])) hrec
          refine ⟨hgs ▸ this.1, ?_⟩
          rw [← hcs]
          intro c hc
          rcases List.mem_cons.mp hc with rfl | hc'
          · rfl
          · exact this.2 c hc'

end CriteriaSheetParser

namespace NakamaSyncService

open Sync

/-- `_sync_call` never removes a call: any `(project, external_id)` already
present stays present. -/
theorem hasCall_syncCall_mono (criteriaDb : List (ℤ × String)) (pid : ℤ)
    (db : List Call) (item : ItemSet) (e : String)
    (h : hasCall db pid e = true) :
    hasCall (syncCall criteriaDb pid db item) pid e = true := by
  unfold syncCall
  rcases hc : hasCall db pid (toString item.id) with _ | _
  · simp only [hc, Bool.false_eq_true, if_false]
    unfold hasCall at h ⊢
    simp [List.any_append, h]
  · simpa [hc]

/-- After `_sync_call` on an item, a call with that item's external id
exists. -/
theorem hasCall_syncCall_self (criteriaDb : List (ℤ × String)) (pid : ℤ)
    (db : List Call) (item : ItemSet) :
    hasCall (syncCall criteriaDb pid db item) pid (toString item.id) = true := by
  unfold syncCall
  rcases hc : hasCall db pid (toString item.id) with _ | _
  · simp [hasCall, List.any_append]
  · simp [hc]

/-- `_sync_call` on an already-present external id is the identity on the
database — the call's content plays no part. -/
theorem syncCall_of_hasCall (criteriaDb : List (ℤ × String)) (pid : ℤ)
    (db : List Call) (item : ItemSet)
    (h : hasCall db pid (toString item.id) = true) :
    syncCall criteriaDb pid db item = db := by
  simp [syncCall, h]

/-- The sync loop never removes a call. -/
theorem hasCall_syncLoop_mono (criteriaDb : List (ℤ × String)) (pid : ℤ) :
    ∀ (items : List ItemSet) (db : List Call) (n : ℕ) (e : String),
      hasCall db pid e = true →
      hasCall (syncLoop criteriaDb pid db n items).2 pid e = true := by
  intro items
  induction items with
  | nil => intro db n e h; simpa [syncLoop]
  | cons item rest ih =>
    intro db n e h
    unfold syncLoop
    rcases hs : (item.status_within_project != "processed") with _ | _
    · simp only [hs, Bool.false_eq_true, if_false]
      exact ih _ _ _ (hasCall_syncCall_mono criteriaDb pid db item e h)
    · simp only [hs, if_true]
      exact ih _ _ _ h

/-- After the sync loop, every processed item of the input has a call with
its external id in the database. -/
theorem hasCall_syncLoop_processed (criteriaDb : List (ℤ × String)) (pid : ℤ) :
    ∀ (items : List ItemSet) (db : List Call) (n : ℕ) (i : ItemSet),
      i ∈ items → i.status_within_project = "processed" →
      hasCall (syncLoop criteriaDb pid db n items).2 pid (toString i.id) = true := by
  intro items
  induction items with
  | nil => intro db n i hi; exact absurd hi (by simp)
  | cons item rest ih =>
    intro db n i hi hp
    unfold syncLoop
    rcases List.mem_cons.mp hi with rfl | hi'
    · have hs : (i.status_within_project != "processed") = false := by simp [hp]
      simp only [hs, Bool.false_eq_true, if_false]
      exact hasCall_syncLoop_mono criteriaDb pid rest _ _ _
        (hasCall_syncCall_self criteriaDb pid db i)
    · rcases hs : (item.status_within_project != "processed") with _ | _
      · simp only [hs, Bool.false_eq_true, if_false]
        exact ih _ _ _ hi' hp
      · simp only [hs, if_true]
        exact ih _ _ _ hi' hp

/-- The number of processed item sets in a batch. -/
def countProcessed (items : List ItemSet) : ℕ :=
  (items.filter (fun i => i.status_within_project == "processed")).length

/-- `synced` counts every processed item set — those `_sync_call` skipped
included. -/
theorem syncLoop_fst (criteriaDb : List (ℤ × String)) (pid : ℤ) :
    ∀ (items : List ItemSet) (db : List Call) (n : ℕ),
      (syncLoop criteriaDb pid db n items).1 = n + countProcessed items := by
  intro items
  induction items with
  | nil => intro db n; simp [syncLoop, countProcessed]
  | cons item rest ih =>
    intro db n
    unfold syncLoop
    rcases hs : (item.status_within_project != "processed") with _ | _
    · have : item.status_within_project == "processed" := by
        simpa using hs
      simp only [hs, Bool.false_eq_true, if_false, ih]
      simp only [countProcessed, List.filter_cons, this, if_true,
        List.length_cons]
      omega
    · have : (item.status_within_project == "processed") = false := by
        simpa using hs
      simp only [hs, if_true, ih]
      simp [countProcessed, List.filter_cons, this]

/-- When every processed item of the batch is already in the database, the
sync loop leaves the database untouched (and still counts each processed
item as synced). -/
theorem syncLoop_stable (criteriaDb : List (ℤ × String)) (pid : ℤ) :
    ∀ (items : List ItemSet) (db : List Call) (n : ℕ),
      (∀ i ∈ items, i.status_within_project = "processed" →
        hasCall db pid (toString i.id) = true) →
      syncLoop criteriaDb pid db n items = (n + countProcessed items, db) := by
  intro items
  induction items with
  | nil => intro db n _; simp [syncLoop, countProcessed]
  | cons item rest ih =>
    intro db n h
    unfold syncLoop
    rcases hs : (item.status_within_project != "processed") with _ | _
    · have hp : item.status_within_project = "processed" := by simpa using hs
      simp only [hs, Bool.false_eq_true, if_false]
      rw [syncCall_of_hasCall criteriaDb pid db item (h item (by simp) hp)]
      rw [ih db (n + 1) (fun i hi hpi => h i (by simp [hi]) hpi)]
      have hb : (item.status_within_project == "processed") := by simpa using hs
      have hcnt : countProcessed (item :: rest) = countProcessed rest + 1 := by
        simp [countProcessed, List.filter_cons, hb]
      rw [hcnt, show n + 1 + countProcessed rest = n + (countProcessed rest + 1) from by omega]
    · have : (item.status_within_project == "processed") = false := by
        simpa using hs
      simp only [hs, if_true]
      rw [ih db n (fun i hi hpi => h i (by simp [hi]) hpi)]
      simp [countProcessed, List.filter_cons, this]

end NakamaSyncService

/-! ## Claims -/

/-- C3 (amended): `_build_column_mapping` classifies a leading-number header
by its captured number without ever consulting the taxonomy — the mapping is
the same function of the headers for every criteria list, so a number absent
from the taxonomy is still mapped (and no `UnmappedColumnWarning` exists);
ingestion indeed does not fail. -/
theorem c3_mapping_ignores_taxonomy :
    ∀ (headers : List Cell) (c₁ c₂ : List Criteria),
      AISheetParser.buildColumnMapping headers c₁
        = AISheetParser.buildColumnMapping headers c₂ :=
  fun _ _ _ => rfl

/-- C3 (counterexample): with an empty taxonomy — so criterion 12 does not
exist — the header `"12 Reason"` is not classified `Unknown` and not
excluded: it lands in the mapping as criterion 12's reason column. -/
theorem c3_counterexample :
    AISheetParser.buildColumnMapping [Cell.str "Call_Date", Cell.str "12 Reason"] []
      = { meta_columns := [(0, "call_date")]
          criteria_columns :=
            [(12, { score_col := none, reason_col := some 1, quote_col := none })]
          formula_columns := [] } := by
  rfl

/-- C4 (amended): `_parse_call_row` returns a `ParsedCall` for every data
row, so a row with every metadata and score cell empty is NOT dropped — the
output has exactly one call per data row, and no `row_errors` list exists in
this parser. -/
theorem c4_every_row_yields_a_call :
    ∀ (rows : List (List Cell)) (criteria : List Criteria),
      (AISheetParser.parse rows criteria).length = rows.length - 3 := by
  intro rows criteria
  simp [AISheetParser.parse]

/-- C4 (counterexample): a data row whose metadata and score cells are all
empty still appears in the output, as a `ParsedCall` with empty metadata and
an all-`None` score entry — it is not dropped. -/
theorem c4_counterexample :
    AISheetParser.parse
        [[], [], [Cell.str "Call_Date", Cell.str "1 A"], [Cell.empty, Cell.empty]]
        [{ group := none, number := 1, name := "A", prompt := none,
           in_final_score := false }]
      = [{ metadata := []
           scores := [{ criteria_number := 1, score := none, reason := none,
                        quote := none }]
           final_percent := none }] := by
  rfl

/-- C5 (amended): `_parse_call_row` assembles the scores list by iterating
`mapping.criteria_columns` — the column mapping, in the order criterion
numbers first appear among the headers — not the taxonomy; criteria absent
from the mapping are omitted without error. -/
theorem c5_scores_follow_mapping_order :
    ∀ (row : List Cell) (mapping : ColumnMapping) (criteria : List Criteria),
      (AISheetParser.parseCallRow row mapping criteria).scores.map
          (fun s => s.criteria_number)
        = mapping.criteria_columns.map Prod.fst := by
  intro row mapping criteria
  simp [AISheetParser.parseCallRow, List.map_map]

/-- C5 (counterexample): with taxonomy order `[1, 2]` but header order
`"2 B"` before `"1 A"`, the parsed scores come out as `[2, 1]` — column
order, not taxonomy order. -/
theorem c5_counterexample :
    (AISheetParser.parse
        [[], [], [Cell.str "x", Cell.str "2 B", Cell.str "1 A"],
         [Cell.empty, Cell.num 5, Cell.num 3]]
        [{ group := none, number := 1, name := "A", prompt := none,
           in_final_score := false },
         { group := none, number := 2, name := "B", prompt := none,
           in_final_score := false }]).map
        (fun c => c.scores.map (fun s => (s.criteria_number, s.score)))
      = [[(2, some "5"), (1, some "3")]] := by
  rfl

/-- C6 (amended): `final_percent` is the value of the LAST `Formula` column
whose label contains `"final"` and whose cell is non-empty (the loop
overwrites on every such column), not the first; when no such column exists
it is null. -/
theorem c6_final_percent_is_last_final_column :
    ∀ (row : List Cell) (mapping : ColumnMapping) (criteria : List Criteria),
      (AISheetParser.parseCallRow row mapping criteria).final_percent
        = (mapping.formula_columns.reverse.find?
            (fun p => strContains (pyLower p.2) "final" && notna (rowGet row p.1))).map
            (fun p => pyFloat (rowGet row p.1)) := by
  intro row mapping criteria
  simp only [AISheetParser.parseCallRow]
  rw [foldl_overwrite_eq_find_reverse
    (fun p : ℕ × String => strContains (pyLower p.2) "final")
    (fun p : ℕ × String => notna (rowGet row p.1))
    (fun p : ℕ × String => pyFloat (rowGet row p.1))
    mapping.formula_columns none]
  rcases hf : mapping.formula_columns.reverse.find?
      (fun p => strContains (pyLower p.2) "final" && notna (rowGet row p.1)) with _ | p
  · simp [hf]
  · simp [hf]

/-- C6 (counterexample): two `Formula` columns both match `"final"` with
values 10 and 20; the parsed `final_percent` is 20, the LAST matching
column's value, not the first's 10. -/
theorem c6_counterexample :
    AISheetParser.parse
        [[], [], [Cell.str "FINAL A", Cell.str "FINAL B"],
         [Cell.num 10, Cell.num 20]] []
      = [{ metadata := [], scores := [], final_percent := some 20 }] := by
  rfl

/-- C7 (amended): `_parse_score` maps an empty cell to `None` — but the
score entry itself is still emitted, one per mapped criterion, so an empty
cell does NOT omit the entry; an int/float cell becomes `str(int(value))`;
any other cell becomes the trimmed string.  No `value_kind` field exists:
the normalized score is a plain optional string. -/
theorem c7_score_normalization :
    AISheetParser.parseScore Cell.empty = none
    ∧ (∀ q : ℚ, AISheetParser.parseScore (Cell.num q) = some (toString (pyInt q)))
    ∧ (∀ s : String, AISheetParser.parseScore (Cell.str s) = some (pyStrip s))
    ∧ (∀ (row : List Cell) (mapping : ColumnMapping) (criteria : List Criteria),
        (AISheetParser.parseCallRow row mapping criteria).scores.length
          = mapping.criteria_columns.length) := by
  refine ⟨rfl, fun q => rfl, fun s => rfl, fun row mapping criteria => ?_⟩
  simp [AISheetParser.parseCallRow]

/-- C7 (counterexample): an empty score cell does not make the entry
disappear — the row still yields a `CallScore` entry for criterion 1, with
`score = None`. -/
theorem c7_counterexample :
    AISheetParser.parse
        [[], [], [Cell.str "x", Cell.str "1 A"], [Cell.empty, Cell.empty]]
        [{ group := none, number := 1, name := "A", prompt := none,
           in_final_score := false }]
      = [{ metadata := []
           scores := [{ criteria_number := 1, score := none, reason := none,
                        quote := none }]
           final_percent := none }] := by
  rfl

/-- C10: `_parse_score` on an int/float cell returns `str(int(value))`,
where `int` truncates toward zero (`|int(q)| = ⌊|q|⌋`): a cell `4.5`
normalizes to `"4"`, a cell `-4.5` to `"-4"`, so fractional score values are
never preserved. -/
theorem c10_float_scores_truncate_toward_zero :
    (∀ q : ℚ, AISheetParser.parseScore (Cell.num q) = some (toString (pyInt q)))
    ∧ (∀ q : ℚ, |pyInt q| = ⌊|q|⌋)
    ∧ AISheetParser.parseScore (Cell.num (9 / 2)) = some "4"
    ∧ AISheetParser.parseScore (Cell.num (-(9 / 2))) = some "-4" := by
  refine ⟨fun q => rfl, fun q => ?_, ?_, ?_⟩
  · rcases le_or_lt 0 q with h | h
    · rw [pyInt, if_pos h, abs_of_nonneg h,
        abs_of_nonneg (Int.floor_nonneg.mpr h)]
    · have hc : ⌈q⌉ ≤ 0 := Int.ceil_le.mpr (by exact_mod_cast h.le)
      rw [pyInt, if_neg (not_le.mpr h), abs_of_neg h,
        abs_of_nonpos hc, Int.floor_neg]
  · have h1 : pyInt (9 / 2 : ℚ) = 4 := by
      rw [pyInt, if_pos (by norm_num), Int.floor_eq_iff]
      norm_num
    show some (toString (pyInt (9 / 2 : ℚ))) = some "4"
    rw [h1]; decide
  · have h2 : pyInt (-(9 / 2) : ℚ) = -4 := by
      rw [pyInt, if_neg (by norm_num), Int.ceil_eq_iff]
      norm_num
    show some (toString (pyInt (-(9 / 2) : ℚ))) = some "-4"
    rw [h2]; decide

/-- C2 (amended): the criteria parser performs no duplicate-number check:
every row with a non-empty number cell appends a criterion, repeated numbers
within the same group included — there is no `DuplicateCriterionNumberError`
and nothing is rejected.  (The count of emitted criteria equals the count of
numbered rows.) -/
theorem c2_duplicate_numbers_all_kept :
    ∀ (rows : List (List Cell)) (r : ParsedCriteria),
      CriteriaSheetParser.parseRows rows = .ok r →
      r.criteria.length = (rows.filter (fun row => notna (rowGet row 1))).length := by
  intro rows r h
  simp only [CriteriaSheetParser.parseRows] at h
  rcases hg : CriteriaSheetParser.goRows none 0 rows with e | ⟨gs, cs⟩ <;> rw [hg] at h
  · exact absurd h (by simp [Except.map])
  · simp only [Except.map, Except.ok.injEq] at h
    rw [← h]
    exact CriteriaSheetParser.goRows_criteria_length rows none 0 gs cs hg

/-- C2 (witness): the duplicate-number taxonomy of the counterexample — two
criterion rows both numbered 1 under group "G" — yields two criteria for two
numbered rows. -/
theorem c2_duplicate_numbers_all_kept_witness :
    ({ groups := [{ name := "G", order := 0 }]
       criteria :=
         [{ group := some { name := "G", order := 0 }, number := 1, name := "A",
            prompt := none, in_final_score := false },
          { group := some { name := "G", order := 0 }, number := 1, name := "B",
            prompt := none, in_final_score := false }] } : ParsedCriteria).criteria.length
      = (([[Cell.str "G", Cell.num 1, Cell.str "A", Cell.empty, Cell.empty],
           [Cell.empty, Cell.num 1, Cell.str "B", Cell.empty, Cell.empty]]).filter
          (fun row => notna (rowGet row 1))).length :=
  c2_duplicate_numbers_all_kept
    [[Cell.str "G", Cell.num 1, Cell.str "A", Cell.empty, Cell.empty],
     [Cell.empty, Cell.num 1, Cell.str "B", Cell.empty, Cell.empty]]
    { groups := [{ name := "G", order := 0 }]
      criteria :=
        [{ group := some { name := "G", order := 0 }, number := 1, name := "A",
           prompt := none, in_final_score := false },
         { group := some { name := "G", order := 0 }, number := 1, name := "B",
           prompt := none, in_final_score := false }] }
    (by rfl)

/-- C2 (counterexample): a second criterion numbered 1 under the same group
"G" is NOT rejected — both criteria numbered 1 appear in the output, the
second one's fields ("B") included, and no error is raised. -/
theorem c2_counterexample :
    CriteriaSheetParser.parseRows
        [[Cell.str "G", Cell.num 1, Cell.str "A", Cell.empty, Cell.empty],
         [Cell.empty, Cell.num 1, Cell.str "B", Cell.empty, Cell.empty]]
      = .ok { groups := [{ name := "G", order := 0 }]
              criteria :=
                [{ group := some { name := "G", order := 0 }, number := 1,
                   name := "A", prompt := none, in_final_score := false },
                 { group := some { name := "G", order := 0 }, number := 1,
                   name := "B", prompt := none, in_final_score := false }] } := by
  rfl

/-- C8: `_find_criteria_sheet` returns the first sheet whose name contains
`"criteria"` case-insensitively as a substring; when no sheet matches,
`parse` fails with the fatal sheet-not-found error
(`ValueError("Criteria sheet not found")`) whatever the sheets' rows
contain — before any row is processed. -/
theorem c8_sheet_locator_first_match :
    (∀ workbook : List (String × List (List Cell)),
        (∀ p ∈ workbook, strContains (pyLower p.1) "criteria" = false) →
        CriteriaSheetParser.parse workbook = .error .sheetNotFound)
    ∧ (∀ (pre : List String) (s : String) (post : List String),
        strContains (pyLower s) "criteria" = true →
        (∀ x ∈ pre, strContains (pyLower x) "criteria" = false) →
        CriteriaSheetParser.findCriteriaSheet (pre ++ s :: post) = .ok s) := by
  constructor
  · intro wb h
    have hf : (wb.map Prod.fst).find?
        (fun n => strContains (pyLower n) "criteria") = none := by
      rw [List.find?_eq_none]
      intro x hx
      rcases List.mem_map.mp hx with ⟨p, hp, rfl⟩
      simp [h p hp]
    simp [CriteriaSheetParser.parse, CriteriaSheetParser.findCriteriaSheet, hf]
  · intro pre s post hs
    induction pre with
    | nil =>
      intro _
      simp [CriteriaSheetParser.findCriteriaSheet, List.find?_cons, hs]
    | cons a t ih =>
      intro hpre
      have ha : strContains (pyLower a) "criteria" = false := hpre a (by simp)
      have ht := ih (fun x hx => hpre x (by simp [hx]))
      simp only [List.cons_append, CriteriaSheetParser.findCriteriaSheet,
        List.find?_cons, ha] at ht ⊢
      exact ht

/-- C8 (witness): a workbook with no criteria-like sheet fails with the
sheet-not-found error, and among `["Лист1", "Criteria 10.12", "Criteria"]`
the first fuzzy match `"Criteria 10.12"` is returned. -/
theorem c8_sheet_locator_first_match_witness :
    CriteriaSheetParser.parse [("Sheet1", []), ("Data", [])]
        = .error .sheetNotFound
    ∧ CriteriaSheetParser.findCriteriaSheet ["Лист1", "Criteria 10.12", "Criteria"]
        = .ok "Criteria 10.12" :=
  ⟨c8_sheet_locator_first_match.1 [("Sheet1", []), ("Data", [])] (by decide),
   c8_sheet_locator_first_match.2 ["Лист1"] "Criteria 10.12" ["Criteria"]
     (by decide) (by decide)⟩

/-- C9 (amended): a criterion row before any group row keeps
`current_group = None` — no synthetic "Ungrouped" group is created, and such
criteria are left with no group at all.  In general, when the sheet has no
group rows, the parser emits no group and every criterion's group is
`None`. -/
theorem c9_no_synthetic_ungrouped_group :
    ∀ (rows : List (List Cell)) (r : ParsedCriteria),
      (∀ row ∈ rows, CriteriaSheetParser.isGroupRow row = false) →
      CriteriaSheetParser.parseRows rows = .ok r →
      r.groups = [] ∧ ∀ c ∈ r.criteria, c.group = none := by
  intro rows r hng h
  simp only [CriteriaSheetParser.parseRows] at h
  rcases hg : CriteriaSheetParser.goRows none 0 rows with e | ⟨gs, cs⟩ <;> rw [hg] at h
  · exact absurd h (by simp [Except.map])
  · simp only [Except.map, Except.ok.injEq] at h
    rw [← h]
    exact CriteriaSheetParser.goRows_no_group rows none 0 gs cs hng hg

/-- C9 (witness): on a sheet whose only row is a criterion row (no group
row anywhere), the output has no groups and its one criterion's group is
`None`. -/
theorem c9_no_synthetic_ungrouped_group_witness :
    ({ groups := []
       criteria := [{ group := none, number := 1, name := "X", prompt := none,
                      in_final_score := false }] } : ParsedCriteria).groups = []
    ∧ ∀ c ∈ ({ groups := []
               criteria := [{ group := none, number := 1, name := "X",
                              prompt := none,
                              in_final_score := false }] } : ParsedCriteria).criteria,
        c.group = none :=
  c9_no_synthetic_ungrouped_group
    [[Cell.empty, Cell.num 1, Cell.str "X", Cell.empty, Cell.empty]]
    { groups := []
      criteria := [{ group := none, number := 1, name := "X", prompt := none,
                     in_final_score := false }] }
    (by decide) (by rfl)

/-- C9 (counterexample): a criterion row appearing before any group row is
emitted with `group = None` — no "Ungrouped" group appears in the groups
list and the criterion is left without a group, contrary to the claim. -/
theorem c9_counterexample :
    CriteriaSheetParser.parseRows
        [[Cell.empty, Cell.num 1, Cell.str "X", Cell.empty, Cell.empty]]
      = .ok { groups := []
              criteria := [{ group := none, number := 1, name := "X",
                             prompt := none, in_final_score := false }] } := by
  rfl

/-- C1 (amended): running `sync_project` a second time over the same item
sets changes nothing: every already-seen external id is skipped regardless
of the call's content (identity is `(project_id, external_id)` alone — no
content hash), no duplicate `Call` rows are created, and the `SyncResult`
has no `calls_skipped_duplicate` field — `synced` counts every processed
item set, skipped ones included, so both runs even report the same
result. -/
theorem c1_resync_is_noop :
    ∀ (criteriaDb : List (ℤ × String)) (pid : ℤ) (db : List Sync.Call)
      (items : List Sync.ItemSet),
      NakamaSyncService.syncProject criteriaDb pid
          (NakamaSyncService.syncProject criteriaDb pid db items).2 items
        = NakamaSyncService.syncProject criteriaDb pid db items := by
  intro crit pid db items
  have hadds : ∀ i ∈ items, i.status_within_project = "processed" →
      NakamaSyncService.hasCall
          (NakamaSyncService.syncLoop crit pid db 0 items).2 pid
          (toString i.id) = true :=
    fun i hi hp =>
      NakamaSyncService.hasCall_syncLoop_processed crit pid items db 0 i hi hp
  have hstable := NakamaSyncService.syncLoop_stable crit pid items
    (NakamaSyncService.syncLoop crit pid db 0 items).2 0 hadds
  have hfst := NakamaSyncService.syncLoop_fst crit pid items db 0
  simp only [NakamaSyncService.syncProject]
  rw [hstable]
  simp [hfst]

/-- C1 (counterexample): an item set whose external id `"7"` already exists
locally but whose content differs (incoming score "3" against stored score
"5") is skipped outright: the database keeps the stale record unchanged —
so record identity is the external id alone, not external id plus a content
hash of (final_percent, score set) — and the run even counts it as synced
(`synced = 1`), there being no `calls_skipped_duplicate` counter. -/
theorem c1_counterexample :
    NakamaSyncService.syncProject [(1, "X")] 1
        [{ project_id := 1, external_id := "7", call_date := none,
           call_week := none, duration_seconds := 0, manager := none,
           scores := [{ criteria_id := 1, score := "5", reason := "r",
                        quote := "q" }] }]
        [{ id := 7, status_within_project := "processed",
           insights := [{ criterion_name := "X", score := "3", reasons := "r2",
                          quotes := "q2" }],
           crm := { call_date := none, week_of_the_call := none,
                    file_duration := 0, manager_name := none,
                    otvetstvennyy := none } }]
      = ({ synced := 1, errors := [] },
         [{ project_id := 1, external_id := "7", call_date := none,
            call_week := none, duration_seconds := 0, manager := none,
            scores := [{ criteria_id := 1, score := "5", reason := "r",
                         quote := "q" }] }]) := by
  decide
